import Mathlib

/-!
Shallow embedding of the `dbt-bq-dry-runner` repository
(`dbt_bq_dry_runner/dry_run.py` and `dbt_bq_dry_runner/hooks.py`).

The program validates compiled dbt SQL model files against BigQuery in
dry-run mode.  We embed:

* file paths as lists of path components (`pathlib.Path.parts`);
* the remote BigQuery client as a function `String → ServiceResponse`
  giving, for each SQL text, either acceptance of the plan, a
  `BadRequest` carrying the service's error entries, or a transport-level
  exception (auth / network / outage) that is not a `BadRequest`;
* Python exceptions as the inductive `PyExn`;
* each method of `BigQueryDryRunner` as a Lean function returning a
  trace: the SQL texts actually sent to the service, the log lines
  emitted, and the returned value or raised exception (`Except`);
* the thread pool of `run_all_models` by a completion-order parameter
  (`order : List Nat`, indices of the submitted futures in the order
  `as_completed` yields them).  `ThreadPoolExecutor.__exit__` calls
  `shutdown(wait=True)` without cancelling queued futures, so every
  submitted unit runs to completion even when the main loop re-raises
  an earlier failure; the model records this as `BatchRun.executed`.
-/

namespace DbtBqDryRunner

/-- A log line emitted through `loguru` (`logging.info` / `logging.error`). -/
inductive LogLine where
  | info (msg : String)
  | error (msg : String)
deriving DecidableEq, Repr

/-- The Python exceptions the embedded code can raise.
`badRequest` carries the `errors` list's `message` fields;
`transport` is any non-`BadRequest` exception from the client
(auth failure, network failure, service outage);
`indexError` models `e.errors[0]` on an empty error list;
`valueError` models `list.index` failing in `_trim_path_from`;
`ioError` models `open` failing on an unreadable file;
`notImplementedError` models `raise NotImplementedError(...)`. -/
inductive PyExn where
  | badRequest (errors : List String)
  | transport (name : String)
  | indexError
  | valueError
  | ioError (path : List String)
  | notImplementedError (msg : String)
deriving DecidableEq, Repr

/-- Outcome of one `client.query(sql, job_config=dry_run)` call: the remote
service either accepts the plan (returning a job, abstracted to a `Nat` id),
rejects it with a `BadRequest` whose `errors` list carries message strings,
or fails at the transport level with some other exception. -/
inductive ServiceResponse where
  | accepted (job : Nat)
  | badRequest (errors : List String)
  | transportError (name : String)
deriving DecidableEq, Repr

instance {ε α : Type} [DecidableEq ε] [DecidableEq α] : DecidableEq (Except ε α) := fun x y =>
  match x, y with
  | .ok a, .ok b =>
    if h : a = b then .isTrue (by rw [h]) else .isFalse (by intro he; cases he; exact h rfl)
  | .error a, .error b =>
    if h : a = b then .isTrue (by rw [h]) else .isFalse (by intro he; cases he; exact h rfl)
  | .ok _, .error _ => .isFalse (by intro he; cases he)
  | .error _, .ok _ => .isFalse (by intro he; cases he)

/-- Trace of one call into the runner: SQL texts sent to the remote service
(in order), log lines emitted, and the returned `QueryJob` (abstracted to its
`Nat` id) or the raised exception. -/
structure UnitTrace where
  calls : List String
  logs : List LogLine
  result : Except PyExn Nat
deriving DecidableEq, Repr

/-- `BigQueryDryRunner._trim_path_from` (dry_run.py:29-46):
`parts.index(parent_dir)` returns the index of the first occurrence and
raises `ValueError` when the segment is absent; the result is
`Path(*parts[idx:])`, the suffix of the parts from that index. -/
def _trim_path_from (parts : List String) (parent_dir : String) : Except PyExn (List String) :=
  if parent_dir ∈ parts then .ok (parts.drop (List.indexOf parent_dir parts))
  else .error .valueError

/-- `'/'.join`, rendering a parts list the way the trimmed `Path` prints. -/
def pathStr (parts : List String) : String := String.intercalate "/" parts

/-- `BigQueryDryRunner.run` (dry_run.py:96-116): issue one dry-run query.
On acceptance, log info and return the job.  On `BadRequest`, log an error
quoting `e.errors[0]['message']` and re-raise the same `BadRequest`
(an empty `errors` list would make `e.errors[0]` raise `IndexError`).
Any other (transport-level) exception propagates uncaught and unlogged. -/
def run (svc : String → ServiceResponse) (sql : String) : UnitTrace :=
  match svc sql with
  | .accepted job => ⟨[sql], [.info "Provided query is valid."], .ok job⟩
  | .badRequest errs =>
    match errs.head? with
    | some m =>
      ⟨[sql],
       [.error ("Error running the dry run for provided query. The sever returned an error: " ++ m)],
       .error (.badRequest errs)⟩
    | none => ⟨[sql], [], .error .indexError⟩
  | .transportError n => ⟨[sql], [], .error (.transport n)⟩

/-- `BigQueryDryRunner.run_from_model` (dry_run.py:118-143): read the file,
issue one dry-run query, then log naming `_trim_path_from(model_path,
'models')`.  The trim happens inside the log f-strings, i.e. only AFTER
`client.query` has returned or raised `BadRequest`; if the path has no
`models` segment the trim's `ValueError` replaces the logging (and, in the
`BadRequest` branch, replaces the re-raise, since the f-string evaluates the
trim before `e.errors[0]`).  A transport-level exception propagates before
any trim is attempted.  `fs` is the filesystem read (`open(...).read()`). -/
def run_from_model (fs : List String → Option String) (svc : String → ServiceResponse)
    (model_path : List String) : UnitTrace :=
  match fs model_path with
  | none => ⟨[], [], .error (.ioError model_path)⟩
  | some sql =>
    match svc sql with
    | .accepted job =>
      match _trim_path_from model_path "models" with
      | .ok t => ⟨[sql], [.info ("Model " ++ pathStr t ++ " is valid.")], .ok job⟩
      | .error e => ⟨[sql], [], .error e⟩
    | .badRequest errs =>
      match _trim_path_from model_path "models" with
      | .ok t =>
        match errs.head? with
        | some m =>
          ⟨[sql],
           [.error ("Error running the dry run for model " ++ pathStr t ++
              ". The sever returned an error: " ++ m)],
           .error (.badRequest errs)⟩
        | none => ⟨[sql], [], .error .indexError⟩
      | .error e => ⟨[sql], [], .error e⟩
    | .transportError n => ⟨[sql], [], .error (.transport n)⟩

/-- The filesystem seen by the runner: regular files (path parts with their
text content) and the set of existing directories. -/
structure FS where
  files : List (List String × String)
  dirs : List (List String)
deriving DecidableEq, Repr

/-- `open(path).read()`: the content of the first matching file entry. -/
def FS.readFile (fs : FS) (p : List String) : Option String :=
  (fs.files.find? (fun e => e.1 == p)).map (fun e => e.2)

/-- Whether a directory exists on this filesystem. -/
def FS.dirExists (fs : FS) (d : List String) : Bool := fs.dirs.contains d

/-- `str.endswith(suffix)`, spelled structurally on the character lists so
that the kernel can evaluate it on concrete file names. -/
def strEndsWith (s suff : String) : Bool := List.isSuffixOf suff.toList s.toList

/-- `BigQueryDryRunner._get_compiled_models` (dry_run.py:88-94):
`self.dbt_target_dir.rglob("*.sql")` restricted to files.  `pathlib`'s
glob returns an empty iterator when the root directory does not exist
(`select_from` checks `is_dir` and yields nothing): the method never
consults `FS.dirs`, only which files lie strictly below `target` with a
name ending in `.sql`. -/
def _get_compiled_models (fs : FS) (target : List String) : List (List String) :=
  (fs.files.filter (fun e =>
      List.isPrefixOf target e.1 && e.1 != target && strEndsWith (e.1.getLastD "") ".sql")).map
    (fun e => e.1)

/-- The value `run_all_models` yields for a given completion order: iterate
`as_completed(futures)`; `future.result()` re-raises the first failing
unit's exception, aborting the loop; with no failure the method returns
`None` (`.ok ()`).  Indices not denoting a submitted future are skipped. -/
def firstErr (results : List (Except PyExn Nat)) : List Nat → Except PyExn Unit
  | [] => .ok ()
  | i :: rest =>
    match results.get? i with
    | some (.error e) => .error e
    | _ => firstErr results rest

/-- Observable behaviour of one `run_all_models` call: the units the pool
ran to completion (all submitted ones — `shutdown(wait=True)` drains the
queue even when the main loop re-raised), the log lines those units
emitted, and the value returned or exception raised by `run_all_models`
itself. -/
structure BatchRun where
  executed : List (List String)
  logs : List LogLine
  result : Except PyExn Unit
deriving DecidableEq, Repr

/-- `BigQueryDryRunner.run_all_models` (dry_run.py:145-159): discover the
compiled models, submit one `run_from_model` per file to the pool, then
consume `as_completed` (modelled by `order`, the indices of the futures in
completion order), re-raising the first failure met.  Every submitted unit
executes regardless; unit logs are aggregated (their real interleaving is
arbitrary; the model concatenates them in submission order). -/
def run_all_models (fs : FS) (svc : String → ServiceResponse) (target : List String)
    (order : List Nat) : BatchRun :=
  let models := _get_compiled_models fs target
  let traces := models.map (fun p => run_from_model fs.readFile svc p)
  { executed := models
    logs := (traces.map (fun t => t.logs)).flatten
    result := firstErr (traces.map (fun t => t.result)) order }

/-- `BigQueryDryRunner.run_from_model_name` (dry_run.py:161-164): raises
`NotImplementedError` immediately; the service is never contacted. -/
def run_from_model_name (svc : String → ServiceResponse) (model_name : String) : UnitTrace :=
  ⟨[], [], .error (.notImplementedError "This method is not implemented yet for BigQueryDryRunner")⟩

/-- The dbt project configuration (`dbt_project.yml` as a mapping); the code
reads `self.dbt_project_config["name"]`, all other keys are unused. -/
structure ProjectConfig where
  name : String
  otherKeys : List (String × String)
deriving DecidableEq, Repr

/-- `BigQueryDryRunner._get_dbt_target_dir` (dry_run.py:48-73): Python's
`if not target_dir` treats both `None` and the empty string as "no
sub-target label", giving `<root>/target/compiled/<name>/models`; a
non-empty label `t` gives `<root>/target/<t>/compiled/<name>/models`. -/
def _get_dbt_target_dir (root_path : List String) (cfg : ProjectConfig)
    (target_dir : Option String) : List String :=
  match target_dir with
  | none => root_path ++ ["target", "compiled", cfg.name, "models"]
  | some t =>
    if t = "" then root_path ++ ["target", "compiled", cfg.name, "models"]
    else root_path ++ ["target", t, "compiled", cfg.name, "models"]

/-- The two CLI operations `hooks.py` can run. -/
inductive CliOp where
  | incremental
  | full_refresh
deriving DecidableEq, Repr

/-- Observable behaviour of one `python hooks.py ...` invocation: the
validation runs performed (in order), the lines printed to stdout, the
lines printed to stderr, and the exit: `.ok c` for a clean exit with code
`c`, `.error e` for an uncaught exception (the interpreter then prints a
traceback to stderr and exits non-zero). -/
structure CliTrace where
  runs : List CliOp
  out : List String
  err : List String
  exit : Except PyExn Nat
deriving DecidableEq, Repr

/-- `hooks.py` `__main__` block (hooks.py:25-33) with `args` the user
arguments (`sys.argv[1:]`).  Line 26 calls `dry_run_incremental_models()`
unconditionally BEFORE inspecting `sys.argv[1]`; a missing argument then
raises `IndexError`; `incremental` runs the incremental validation a second
time; `full_refresh` additionally prints its banner and runs the
full-refresh validation; anything else prints the usage message to STDOUT
(`print`, not stderr) and calls `sys.exit(1)`. -/
def hooks_main (args : List String) : CliTrace :=
  match args.head? with
  | none => ⟨[.incremental], [], [], .error .indexError⟩
  | some a =>
    if a = "incremental" then ⟨[.incremental, .incremental], [], [], .ok 0⟩
    else if a = "full_refresh" then
      ⟨[.incremental, .full_refresh], ["Running full refresh models"], [], .ok 0⟩
    else
      ⟨[.incremental],
       ["Please provide a valid argument: `incremental` or `full_refresh`"], [], .ok 1⟩

/-! ### Helper lemmas -/

lemma trim_of_mem {parts : List String} (h : "models" ∈ parts) :
    _trim_path_from parts "models" = .ok (parts.drop (List.indexOf "models" parts)) := by
  simp [_trim_path_from, h]

lemma trim_of_not_mem {parts : List String} {pd : String} (h : pd ∉ parts) :
    _trim_path_from parts pd = .error .valueError := by
  simp [_trim_path_from, h]

lemma get?_map' {α β : Type} (f : α → β) (l : List α) (n : Nat) :
    (l.map f).get? n = (l.get? n).map f := by
  simp [List.get?_eq_getElem?]

lemma firstErr_cons (results : List (Except PyExn Nat)) (i : Nat) (rest : List Nat) :
    firstErr results (i :: rest) =
      match results.get? i with
      | some (.error e) => .error e
      | _ => firstErr results rest := rfl

lemma firstErr_ok_of_all_ok {results : List (Except PyExn Nat)}
    (h : ∀ r ∈ results, ∃ j, r = .ok j) :
    ∀ order : List Nat, firstErr results order = .ok ()
  | [] => rfl
  | i :: rest => by
    rw [firstErr_cons]
    cases hg : results.get? i with
    | none => exact firstErr_ok_of_all_ok h rest
    | some r =>
      obtain ⟨j, rfl⟩ := h r (List.get?_mem hg)
      exact firstErr_ok_of_all_ok h rest

lemma firstErr_err_of_mem {results : List (Except PyExn Nat)} {i : Nat} {e : PyExn}
    (hi : results.get? i = some (.error e)) :
    ∀ order : List Nat, i ∈ order → ∃ er, firstErr results order = .error er := by
  intro order
  induction order with
  | nil => intro h; cases h
  | cons j rest ih =>
    intro hmem
    rw [firstErr_cons]
    cases hg : results.get? j with
    | some r =>
      cases r with
      | error er => exact ⟨er, rfl⟩
      | ok v =>
        rcases List.mem_cons.mp hmem with rfl | hr
        · rw [hi] at hg; cases hg
        · exact ih hr
    | none =>
      rcases List.mem_cons.mp hmem with rfl | hr
      · rw [hi] at hg; cases hg
      · exact ih hr

lemma mem_compiled_models {fs : FS} {td p : List String}
    (h : p ∈ _get_compiled_models fs td) :
    (∃ c, (p, c) ∈ fs.files) ∧ List.isPrefixOf td p = true := by
  unfold _get_compiled_models at h
  obtain ⟨e, he, rfl⟩ := List.mem_map.mp h
  have hf := List.mem_filter.mp he
  refine ⟨⟨e.2, hf.1⟩, ?_⟩
  have := hf.2
  simp only [Bool.and_eq_true] at this
  exact this.1.1

lemma readFile_of_discovered {fs : FS} {td p : List String}
    (h : p ∈ _get_compiled_models fs td) :
    ∃ sql, fs.readFile p = some sql := by
  obtain ⟨⟨c, hc⟩, -⟩ := mem_compiled_models h
  unfold FS.readFile
  cases hf : fs.files.find? (fun e => e.1 == p) with
  | none =>
    exfalso
    have := List.find?_eq_none.mp hf (p, c) hc
    simp at this
  | some e => exact ⟨e.2, rfl⟩

lemma models_mem_of_discovered {fs : FS} {td p : List String}
    (hm : "models" ∈ td) (h : p ∈ _get_compiled_models fs td) : "models" ∈ p := by
  obtain ⟨-, hpre⟩ := mem_compiled_models h
  exact List.IsPrefix.mem hm (List.isPrefixOf_iff_prefix.mp hpre)

lemma run_from_model_result_ok {fs : List String → Option String}
    {svc : String → ServiceResponse} {p : List String} {sql : String} {j : Nat}
    (hread : fs p = some sql) (hs : svc sql = .accepted j) (hm : "models" ∈ p) :
    (run_from_model fs svc p).result = .ok j := by
  have ht := trim_of_mem hm
  simp [run_from_model, hread, hs, ht]

lemma run_from_model_result_err {fs : List String → Option String}
    {svc : String → ServiceResponse} {p : List String} {sql : String} {errs : List String}
    (hread : fs p = some sql) (hs : svc sql = .badRequest errs) :
    ∃ e, (run_from_model fs svc p).result = .error e := by
  simp only [run_from_model, hread, hs]
  cases ht : _trim_path_from p "models" with
  | ok t =>
    cases he : errs.head? with
    | some m => exact ⟨_, rfl⟩
    | none => exact ⟨_, rfl⟩
  | error e => exact ⟨e, rfl⟩

/-! ### Concrete fixtures used by witnesses and counterexamples -/

/-- A target directory following the dbt convention. -/
def tdX : List String := ["root", "target", "compiled", "proj", "models"]

/-- Two compiled model files below `tdX`. -/
def fsX : FS :=
  ⟨[(tdX ++ ["a.sql"], "SELECT 1"), (tdX ++ ["b.sql"], "SELECT 2")], [tdX]⟩

/-- One valid model and one the service rejects, below `tdX`. -/
def fsW : FS :=
  ⟨[(tdX ++ ["a.sql"], "SELECT 1"), (tdX ++ ["b", "bad.sql"], "SELECT bad")], [tdX]⟩

/-- A service accepting every query. -/
def svcOk : String → ServiceResponse := fun _ => .accepted 3

/-- A service rejecting `SELECT bad` with a `BadRequest` and accepting the rest. -/
def svcW : String → ServiceResponse := fun s =>
  if s = "SELECT bad" then .badRequest ["Unrecognized name: bad"] else .accepted 7

/-- A service failing at the transport level on every query. -/
def svcT : String → ServiceResponse := fun _ => .transportError "serviceOutage"

/-- Both queries fail at the transport level; the second one with `network1`. -/
def svcA1 : String → ServiceResponse := fun s =>
  if s = "SELECT 1" then .transportError "auth" else .transportError "network1"

/-- Same as `svcA1` except the second query fails with `network2`. -/
def svcB1 : String → ServiceResponse := fun s =>
  if s = "SELECT 1" then .transportError "auth" else .transportError "network2"

/-- A one-file filesystem read whose path has no `models` segment. -/
def fsNoModels : List String → Option String := fun p =>
  if p = ["tmp", "x.sql"] then some "SELECT 1" else none

/-- An empty filesystem: the target directory does not exist. -/
def fsEmpty : FS := ⟨[], []⟩

/-! ### Claim theorems -/

/-- C3: neither adapter entry point — `run` nor `run_from_model` — converts
a transport-level failure into a validation rejection: a non-`BadRequest`
exception propagates as the distinct `PyExn.transport` kind with no error
log, while a `BadRequest` is the one re-raised as the validation-failure
kind, logged with the server-provided message of the first error entry
(in `run_from_model`, naming the trimmed path); the two kinds are distinct
constructors. -/
theorem run_distinguishes_transport_from_invalid (fs : List String → Option String)
    (svc : String → ServiceResponse) (sql : String) (path : List String) :
    (∀ n, svc sql = .transportError n →
      (run svc sql).result = .error (.transport n) ∧ (run svc sql).logs = []) ∧
    (∀ m rest, svc sql = .badRequest (m :: rest) →
      (run svc sql).result = .error (.badRequest (m :: rest)) ∧
      (run svc sql).logs =
        [.error ("Error running the dry run for provided query. The sever returned an error: "
          ++ m)]) ∧
    (∀ n, fs path = some sql → svc sql = .transportError n →
      (run_from_model fs svc path).result = .error (.transport n) ∧
      (run_from_model fs svc path).logs = []) ∧
    (∀ m rest, fs path = some sql → "models" ∈ path → svc sql = .badRequest (m :: rest) →
      (run_from_model fs svc path).result = .error (.badRequest (m :: rest)) ∧
      (run_from_model fs svc path).logs =
        [.error ("Error running the dry run for model " ++
          pathStr (path.drop (List.indexOf "models" path)) ++
          ". The sever returned an error: " ++ m)]) ∧
    ∀ n errs, PyExn.transport n ≠ PyExn.badRequest errs := by
  refine ⟨?_, ?_, ?_, ?_, ?_⟩
  · intro n h
    constructor <;> simp [run, h]
  · intro m rest h
    constructor <;> simp [run, h]
  · intro n hread h
    constructor <;> simp [run_from_model, hread, h]
  · intro m rest hread hm h
    have ht := trim_of_mem hm
    constructor <;> simp [run_from_model, hread, h, ht]
  · intro n errs hc
    cases hc

theorem run_distinguishes_transport_from_invalid_witness :
    ((run svcT "SELECT 1").result = .error (.transport "serviceOutage") ∧
      (run svcT "SELECT 1").logs = []) ∧
    ((run_from_model fsNoModels svcT ["tmp", "x.sql"]).result =
        .error (.transport "serviceOutage") ∧
      (run_from_model fsNoModels svcT ["tmp", "x.sql"]).logs = []) ∧
    ((run_from_model fsW.readFile svcW (tdX ++ ["b", "bad.sql"])).result =
        .error (.badRequest ["Unrecognized name: bad"]) ∧
      (run_from_model fsW.readFile svcW (tdX ++ ["b", "bad.sql"])).logs =
        [.error ("Error running the dry run for model " ++
          pathStr ((tdX ++ ["b", "bad.sql"]).drop
            (List.indexOf "models" (tdX ++ ["b", "bad.sql"]))) ++
          ". The sever returned an error: " ++ "Unrecognized name: bad")]) :=
  ⟨(run_distinguishes_transport_from_invalid fsNoModels svcT "SELECT 1"
      ["tmp", "x.sql"]).1 "serviceOutage" rfl,
   (run_distinguishes_transport_from_invalid fsNoModels svcT "SELECT 1"
      ["tmp", "x.sql"]).2.2.1 "serviceOutage" rfl rfl,
   (run_distinguishes_transport_from_invalid fsW.readFile svcW "SELECT bad"
      (tdX ++ ["b", "bad.sql"])).2.2.2.1 "Unrecognized name: bad" [] rfl (by decide) rfl⟩

/-- C4: for a path containing the `models` segment, `_trim_path_from`
returns the suffix of the path starting at that (first such) segment;
instantiated at `.../target/compiled/<project>/models/a/b.sql` it yields
`models/a/b.sql`. -/
theorem trim_path_starts_at_models (pre rest : List String) (h : "models" ∉ pre) :
    _trim_path_from (pre ++ "models" :: rest) "models" = .ok ("models" :: rest) := by
  have hmem : "models" ∈ pre ++ "models" :: rest :=
    List.mem_append_right _ (List.mem_cons_self _ _)
  simp only [_trim_path_from, if_pos hmem]
  congr 1
  rw [List.indexOf_append_of_not_mem h, List.indexOf_cons_self, Nat.add_zero,
    List.drop_left]

theorem trim_path_starts_at_models_witness :
    _trim_path_from
        (["home", "me", "target", "compiled", "proj"] ++ "models" :: ["a", "b.sql"])
        "models" = .ok ("models" :: ["a", "b.sql"]) :=
  trim_path_starts_at_models ["home", "me", "target", "compiled", "proj"] ["a", "b.sql"]
    (by decide)

/-- C5 counterexample: a path with no `models` segment, readable file and a
service that accepts the query.  `run_from_model` does raise (`ValueError`
from `parts.index`), but only AFTER the remote dry-run request was issued:
the trace shows one service call.  This falsifies the part of the claim
saying the configuration error occurs before any unit validation work. -/
theorem trim_error_after_remote_call_counterexample :
    (run_from_model fsNoModels svcOk ["tmp", "x.sql"]).result = .error .valueError ∧
    (run_from_model fsNoModels svcOk ["tmp", "x.sql"]).calls = ["SELECT 1"] := by
  constructor <;> rfl

/-- C5 (amended): for a readable file whose path lacks the `models` segment,
`run_from_model` fails loudly — `ValueError` when the service answered
(accepted or `BadRequest`), or the transport exception itself — but the
remote dry-run request has already been issued (`calls = [sql]`), i.e. the
failure happens after, not before, the unit's validation work. -/
theorem trim_error_raised_after_remote_request (fs : List String → Option String)
    (svc : String → ServiceResponse) (path : List String) (sql : String)
    (hread : fs path = some sql) (hnm : "models" ∉ path) :
    (run_from_model fs svc path).calls = [sql] ∧
    ((run_from_model fs svc path).result = .error .valueError ∨
      ∃ n, (run_from_model fs svc path).result = .error (.transport n)) := by
  have ht := trim_of_not_mem hnm
  cases hs : svc sql with
  | accepted j =>
    exact ⟨by simp [run_from_model, hread, hs, ht], Or.inl (by simp [run_from_model, hread, hs, ht])⟩
  | badRequest errs =>
    exact ⟨by simp [run_from_model, hread, hs, ht], Or.inl (by simp [run_from_model, hread, hs, ht])⟩
  | transportError n =>
    exact ⟨by simp [run_from_model, hread, hs], Or.inr ⟨n, by simp [run_from_model, hread, hs]⟩⟩

theorem trim_error_raised_after_remote_request_witness :
    (run_from_model fsNoModels svcT ["tmp", "x.sql"]).calls = ["SELECT 1"] ∧
    ((run_from_model fsNoModels svcT ["tmp", "x.sql"]).result = .error .valueError ∨
      ∃ n, (run_from_model fsNoModels svcT ["tmp", "x.sql"]).result = .error (.transport n)) :=
  trim_error_raised_after_remote_request fsNoModels svcT ["tmp", "x.sql"] "SELECT 1"
    rfl (by decide)

/-- C8: `run_from_model_name` raises `NotImplementedError` immediately for
every service and model name: no service call, no log, and the
`notImplementedError` kind is distinct from the validation-failure
(`badRequest`) and transport kinds. -/
theorem run_from_model_name_raises_not_implemented (svc : String → ServiceResponse)
    (name : String) :
    run_from_model_name svc name =
      ⟨[], [],
        .error (.notImplementedError "This method is not implemented yet for BigQueryDryRunner")⟩ ∧
    ∀ msg errs n, PyExn.notImplementedError msg ≠ PyExn.badRequest errs ∧
      PyExn.notImplementedError msg ≠ PyExn.transport n := by
  refine ⟨rfl, ?_⟩
  intro msg errs n
  refine ⟨?_, ?_⟩
  · intro hc
    cases hc
  · intro hc
    cases hc

theorem run_from_model_name_raises_not_implemented_witness :
    run_from_model_name svcOk "my_model" =
      ⟨[], [],
        .error (.notImplementedError "This method is not implemented yet for BigQueryDryRunner")⟩ :=
  (run_from_model_name_raises_not_implemented svcOk "my_model").1

/-- C9: evaluation of the `hooks.py` main block at the failing inputs.
`full_refresh` performs an incremental validation run before the requested
full-refresh one; `incremental` runs the incremental validation twice; a
missing argument crashes with `IndexError` after an incremental run; an
invalid argument still performs an incremental run and prints the usage
message to STDOUT (exit code 1).  The claim — exactly the named operation,
no validation run on a usage error, usage on stderr — is the evident intent
of the `if/elif/else` dispatch; the unconditional call on line 26 is a slip. -/
theorem hooks_main_bug_eval :
    hooks_main ["full_refresh"] =
      ⟨[.incremental, .full_refresh], ["Running full refresh models"], [], .ok 0⟩ ∧
    hooks_main ["incremental"] = ⟨[.incremental, .incremental], [], [], .ok 0⟩ ∧
    hooks_main [] = ⟨[.incremental], [], [], .error .indexError⟩ ∧
    hooks_main ["bogus"] =
      ⟨[.incremental],
       ["Please provide a valid argument: `incremental` or `full_refresh`"], [], .ok 1⟩ := by
  refine ⟨rfl, rfl, rfl, rfl⟩

/-- C10: the resolved target directory layout.  With no sub-target label
(or the falsy empty string) it is `<root>/target/compiled/<name>/models`;
with a non-empty label `t` the label is inserted between `target` and
`compiled`; and the result depends on the project configuration only
through its `name` field. -/
theorem target_dir_layout (root : List String) (cfg : ProjectConfig) :
    _get_dbt_target_dir root cfg none = root ++ ["target", "compiled", cfg.name, "models"] ∧
    (∀ t : String, t ≠ "" →
      _get_dbt_target_dir root cfg (some t) =
        root ++ ["target", t, "compiled", cfg.name, "models"]) ∧
    ∀ cfg' : ProjectConfig, cfg.name = cfg'.name →
      ∀ o : Option String, _get_dbt_target_dir root cfg o = _get_dbt_target_dir root cfg' o := by
  refine ⟨rfl, ?_, ?_⟩
  · intro t ht
    simp [_get_dbt_target_dir, ht]
  · intro cfg' hn o
    cases o with
    | none => simp [_get_dbt_target_dir, hn]
    | some t => simp [_get_dbt_target_dir, hn]

theorem target_dir_layout_witness :
    _get_dbt_target_dir ["root"] ⟨"proj", []⟩ (some "incremental") =
      ["root"] ++ ["target", "incremental", "compiled", "proj", "models"] :=
  (target_dir_layout ["root"] ⟨"proj", []⟩).2.1 "incremental" (by decide)

/-! ### Batch-level lemmas and claim theorems -/

lemma run_all_models_result (fs : FS) (svc : String → ServiceResponse)
    (td : List String) (order : List Nat) :
    (run_all_models fs svc td order).result =
      firstErr (((_get_compiled_models fs td).map
        (fun p => run_from_model fs.readFile svc p)).map (fun t => t.result)) order := rfl

lemma firstErr_nil (order : List Nat) : firstErr [] order = .ok () :=
  firstErr_ok_of_all_ok (fun r hr => absurd hr (List.not_mem_nil r)) order

/-- C1 counterexample: a batch of two files, both failing at the transport
level.  The two services differ in the outcome of the second file
(`network1` vs `network2`), yet the entire observable behaviour of
`run_all_models` — executed units, logs and returned/raised value — is
identical: only the first-completed failure is reported, the sibling's
outcome is silently dropped, so the batch result does not contain one
outcome per submitted request. -/
theorem run_all_models_drops_sibling_outcome :
    run_all_models fsX svcA1 tdX [0, 1] = run_all_models fsX svcB1 tdX [0, 1] ∧
    (run_from_model fsX.readFile svcA1 (tdX ++ ["b.sql"])).result =
      .error (.transport "network1") ∧
    (run_from_model fsX.readFile svcB1 (tdX ++ ["b.sql"])).result =
      .error (.transport "network2") := by
  refine ⟨?_, rfl, rfl⟩
  rfl

/-- C1 (amended): `run_all_models` submits one unit per discovered file and
the pool runs every submitted unit to completion even when some fail
(`executed` is the full model list); but the method produces no per-request
outcome collection: it returns `None` exactly when every unit succeeded and
otherwise re-raises the first-completed unit failure, dropping the other
units' outcomes. -/
theorem run_all_models_joins_all_reports_first_failure (fs : FS)
    (svc : String → ServiceResponse) (td : List String) (order : List Nat)
    (hcov : ∀ i, i < (_get_compiled_models fs td).length → i ∈ order) :
    (run_all_models fs svc td order).executed = _get_compiled_models fs td ∧
    ((run_all_models fs svc td order).result = .ok () ↔
      ∀ p ∈ _get_compiled_models fs td,
        ∃ j, (run_from_model fs.readFile svc p).result = .ok j) := by
  refine ⟨rfl, ?_, ?_⟩
  · intro hok p hp
    cases hr : (run_from_model fs.readFile svc p).result with
    | ok j => exact ⟨j, rfl⟩
    | error e =>
      exfalso
      obtain ⟨n, hn⟩ := List.mem_iff_get?.mp hp
      obtain ⟨hlen, -⟩ := List.get?_eq_some.mp hn
      have hres : (((_get_compiled_models fs td).map
          (fun q => run_from_model fs.readFile svc q)).map (fun t => t.result)).get? n =
            some (Except.error e) := by
        rw [List.map_map, get?_map', hn]
        simp only [Option.map_some']
        rw [Function.comp_apply, hr]
      obtain ⟨er, her⟩ := firstErr_err_of_mem hres order (hcov n hlen)
      rw [run_all_models_result, her] at hok
      cases hok
  · intro hall
    rw [run_all_models_result]
    apply firstErr_ok_of_all_ok
    intro r hr
    rw [List.map_map] at hr
    obtain ⟨p, hp, rfl⟩ := List.mem_map.mp hr
    exact hall p hp

theorem run_all_models_joins_all_reports_first_failure_witness :
    (run_all_models fsX svcOk tdX [0, 1]).executed = _get_compiled_models fsX tdX ∧
    ((run_all_models fsX svcOk tdX [0, 1]).result = .ok () ↔
      ∀ p ∈ _get_compiled_models fsX tdX,
        ∃ j, (run_from_model fsX.readFile svcOk p).result = .ok j) :=
  run_all_models_joins_all_reports_first_failure fsX svcOk tdX [0, 1] (by decide)

/-- C2: failure isolation.  If some discovered model's SQL is rejected by
the service (`BadRequest`), then `run_all_models` does not return normally
(the overall batch is not all-valid), yet the pool still executes every
sibling unit, and every sibling whose SQL the service accepts still gets a
`Valid` unit outcome (its `run_from_model` returns the job). -/
theorem batch_failure_isolation (fs : FS) (svc : String → ServiceResponse)
    (td : List String) (order : List Nat)
    (hcov : ∀ i, i < (_get_compiled_models fs td).length → i ∈ order)
    (hm : "models" ∈ td) (p : List String) (hp : p ∈ _get_compiled_models fs td)
    (errs : List String)
    (hbad : ∃ sql, fs.readFile p = some sql ∧ svc sql = .badRequest errs) :
    (run_all_models fs svc td order).result ≠ .ok () ∧
    (run_all_models fs svc td order).executed = _get_compiled_models fs td ∧
    ∀ q, q ∈ _get_compiled_models fs td → ∀ sql j, fs.readFile q = some sql →
      svc sql = .accepted j → (run_from_model fs.readFile svc q).result = .ok j := by
  obtain ⟨sql, hr, hs⟩ := hbad
  obtain ⟨e, he⟩ := run_from_model_result_err hr hs
  obtain ⟨n, hn⟩ := List.mem_iff_get?.mp hp
  obtain ⟨hlen, -⟩ := List.get?_eq_some.mp hn
  have hres : (((_get_compiled_models fs td).map
      (fun q => run_from_model fs.readFile svc q)).map (fun t => t.result)).get? n =
        some (Except.error e) := by
    rw [List.map_map, get?_map', hn]
    simp only [Option.map_some']
    rw [Function.comp_apply, he]
  obtain ⟨er, her⟩ := firstErr_err_of_mem hres order (hcov n hlen)
  refine ⟨?_, rfl, ?_⟩
  · rw [run_all_models_result, her]
    intro hc
    cases hc
  · intro q hq sql' j hr' hs'
    exact run_from_model_result_ok hr' hs' (models_mem_of_discovered hm hq)

theorem batch_failure_isolation_witness :
    (run_all_models fsW svcW tdX [0, 1]).result ≠ .ok () ∧
    (run_all_models fsW svcW tdX [0, 1]).executed = _get_compiled_models fsW tdX ∧
    ∀ q, q ∈ _get_compiled_models fsW tdX → ∀ sql j, fsW.readFile q = some sql →
      svcW sql = .accepted j → (run_from_model fsW.readFile svcW q).result = .ok j :=
  batch_failure_isolation fsW svcW tdX [0, 1] (by decide) (by decide)
    (tdX ++ ["b", "bad.sql"]) (by decide) ["Unrecognized name: bad"]
    ⟨"SELECT bad", rfl, rfl⟩

/-- C6 counterexample: in a filesystem where the target directory does not
exist at all (no directories, no files), `run_all_models` does not fail
fast — discovery enumerates nothing and the batch completes successfully
as an empty batch. -/
theorem missing_target_dir_counterexample :
    fsEmpty.dirExists tdX = false ∧
    run_all_models fsEmpty svcOk tdX [] = ⟨[], [], .ok ()⟩ := by
  constructor <;> rfl

/-- C6 (amended): neither `_get_compiled_models` nor `run_all_models`
checks that the target directory exists or is readable; when no file lies
under the target directory (in particular when it does not exist, since
`rglob` on a missing directory yields nothing), the batch is treated as an
empty, successful batch: no unit executes, nothing is logged, and
`run_all_models` returns normally. -/
theorem missing_target_dir_empty_success (fs : FS) (svc : String → ServiceResponse)
    (td : List String) (order : List Nat)
    (hnone : ∀ e ∈ fs.files, List.isPrefixOf td e.1 = false) :
    run_all_models fs svc td order = ⟨[], [], .ok ()⟩ := by
  have hm : _get_compiled_models fs td = [] := by
    unfold _get_compiled_models
    rw [List.map_eq_nil_iff, List.filter_eq_nil_iff]
    intro a ha
    simp [hnone a ha]
  have hexp : run_all_models fs svc td order =
      ⟨_get_compiled_models fs td,
       (((_get_compiled_models fs td).map
          (fun p => run_from_model fs.readFile svc p)).map (fun t => t.logs)).flatten,
       firstErr (((_get_compiled_models fs td).map
          (fun p => run_from_model fs.readFile svc p)).map (fun t => t.result)) order⟩ := rfl
  rw [hexp, hm]
  simp [firstErr_nil]

theorem missing_target_dir_empty_success_witness :
    run_all_models fsEmpty svcT tdX [0, 1, 2] = ⟨[], [], .ok ()⟩ :=
  missing_target_dir_empty_success fsEmpty svcT tdX [0, 1, 2]
    (fun e he => absurd he (List.not_mem_nil e))

/-- C7: a batch in which every discovered model is readable and accepted by
the service completes successfully: `run_all_models` returns normally, the
pool executes exactly the N discovered units, and each unit's outcome is
`Valid` (its `run_from_model` returns the job).  With no matching files the
batch is empty and still succeeds (the hypotheses hold vacuously and
`executed = []`). -/
theorem all_valid_batch_succeeds (fs : FS) (svc : String → ServiceResponse)
    (td : List String) (order : List Nat) (hm : "models" ∈ td)
    (hok : ∀ p ∈ _get_compiled_models fs td, ∀ sql, fs.readFile p = some sql →
      ∃ j, svc sql = .accepted j) :
    (run_all_models fs svc td order).result = .ok () ∧
    (run_all_models fs svc td order).executed = _get_compiled_models fs td ∧
    ∀ p ∈ _get_compiled_models fs td,
      ∃ j, (run_from_model fs.readFile svc p).result = .ok j := by
  have hunit : ∀ p ∈ _get_compiled_models fs td,
      ∃ j, (run_from_model fs.readFile svc p).result = .ok j := by
    intro p hp
    obtain ⟨sql, hr⟩ := readFile_of_discovered hp
    obtain ⟨j, hj⟩ := hok p hp sql hr
    exact ⟨j, run_from_model_result_ok hr hj (models_mem_of_discovered hm hp)⟩
  refine ⟨?_, rfl, hunit⟩
  rw [run_all_models_result]
  apply firstErr_ok_of_all_ok
  intro r hr
  rw [List.map_map] at hr
  obtain ⟨p, hp, rfl⟩ := List.mem_map.mp hr
  exact hunit p hp

theorem all_valid_batch_succeeds_witness :
    (run_all_models fsX svcOk tdX [1, 0]).result = .ok () ∧
    (run_all_models fsX svcOk tdX [1, 0]).executed = _get_compiled_models fsX tdX ∧
    ∀ p ∈ _get_compiled_models fsX tdX,
      ∃ j, (run_from_model fsX.readFile svcOk p).result = .ok j :=
  all_valid_batch_succeeds fsX svcOk tdX [1, 0] (by decide)
    (fun p hp sql hr => ⟨3, rfl⟩)

end DbtBqDryRunner
